import Mathlib

/-!
Shallow embedding of the machining-quote estimation engine
(`src/machining_quote_app.py`, with the cost button of
`src/machining_quote.py`).  Numeric values are modelled as rationals;
the Python code performs the same field arithmetic on floats.

All definitions are translated from the source:
  * `V_raw` / `V_chip`            — lines 70–71,
  * the per-operation loop        — lines 117–140 (`computeOp`),
  * time/cost aggregation         — lines 161–162 and 173–180.
-/

namespace MachiningQuote

/-- One row of the operations table (columns of `default_operations`,
lines 76–88 of `machining_quote_app.py`). -/
structure Operation where
  toolDiameter : ℚ   -- "Tool Ø (mm)"
  teeth        : ℚ   -- "Teeth"
  rpm          : ℚ   -- "RPM"
  fz           : ℚ   -- "f_z (mm)"
  feedManual   : ℚ   -- "Feed (mm/min)" (manual-feed column)
  a_p          : ℚ   -- "a_p (mm)"
  a_e_mm       : ℚ   -- "a_e (mm)" (manual radial column)
  ae_pct       : ℚ   -- "ae % (of Ø)"
  volumeShare  : ℚ   -- "Volume Share"
  deriving Repr, DecidableEq

/-- The radio choice on line 102: `"Calculate from RPM × fₓ × teeth"`
versus `"Manual column 'Feed (mm/min)'"`. -/
inductive FeedMode where
  | calculate : FeedMode
  | manual    : FeedMode
  deriving Repr, DecidableEq

/-- The radio choice on line 94: `"Use % of tool Ø"` versus
`"Manual aₑ (mm)"`. -/
inductive AeMode where
  | percent : AeMode
  | manual  : AeMode
  deriving Repr, DecidableEq

/-- Feed resolution, lines 120–121:
`feed = row["Teeth"] * row["RPM"] * row["f_z (mm)"] if
feed_mode.startswith("Calculate") else row["Feed (mm/min)"]`. -/
def feedOf (m : FeedMode) (op : Operation) : ℚ :=
  match m with
  | .calculate => op.teeth * op.rpm * op.fz
  | .manual    => op.feedManual

/-- Radial-depth resolution, lines 124–125:
`ae = row["Tool Ø (mm)"] * row["ae % (of Ø)"] / 100 if
ae_mode.startswith("Use %") else row["a_e (mm)"]`. -/
def aeOf (m : AeMode) (op : Operation) : ℚ :=
  match m with
  | .percent => op.toolDiameter * op.ae_pct / 100
  | .manual  => op.a_e_mm

/-- One entry of `op_results` (lines 133–140). -/
structure OpResult where
  feed    : ℚ   -- "Feed (mm/min)"
  ae      : ℚ   -- "aₑ (mm)"
  mrr     : ℚ   -- "MRR (mm³/min)"
  chipVol : ℚ   -- "Chip Volume (mm³)"
  timeMin : ℚ   -- "Time (min)"
  deriving Repr, DecidableEq

/-- Body of the per-operation loop, lines 118–140.  Note the source's
line 130: `time_min = chip_vol / mrr / 60 if mrr else 0` — the Python
truthiness test fires exactly when `mrr == 0`, and the nonzero branch
divides the minutes value by an extra 60. -/
def computeOp (fm : FeedMode) (am : AeMode) (vChip : ℚ) (op : Operation) :
    OpResult :=
  let feed := feedOf fm op
  let ae := aeOf am op
  let mrr := feed * op.a_p * ae
  let chipVol := vChip * op.volumeShare
  let timeMin := if mrr = 0 then 0 else chipVol / mrr / 60
  ⟨feed, ae, mrr, chipVol, timeMin⟩

/-- Raw block volume, line 70: `V_raw = L * W * H`. -/
def V_raw (L W H : ℚ) : ℚ := L * W * H

/-- Chip volume, line 71: `V_chip = max(V_raw - V_final, 0)`. -/
def V_chip (vRaw vFinal : ℚ) : ℚ := max (vRaw - vFinal) 0

/-- Machining time, line 161: `mach_time_min = op_df["Time (min)"].sum()`. -/
def mach_time_min (results : List OpResult) : ℚ :=
  (results.map OpResult.timeMin).sum

/-- Total time, line 162: `total_time_min = mach_time_min + setup_time_min`. -/
def total_time_min (results : List OpResult) (setupTimeMin : ℚ) : ℚ :=
  mach_time_min results + setupTimeMin

/-- The sidebar cost inputs (lines 54–65). -/
structure CostParams where
  machineRate    : ℚ   -- "Machine rate ($/hr)"
  toolCost       : ℚ   -- "Tool wear cost per part ($)"
  matDensity     : ℚ   -- "Material density (kg/mm³)"
  matPrice       : ℚ   -- "Material cost ($/kg)"
  overheadPct    : ℚ   -- "Overhead (%)"
  setupTimeMin   : ℚ   -- "Setup time (min)"
  setupLaborRate : ℚ   -- "Labor rate ($/hr)"
  deriving Repr, DecidableEq

/-- The cost figures computed on lines 173–180. -/
structure CostResult where
  rawMass      : ℚ
  materialCost : ℚ
  machineCost  : ℚ
  setupCost    : ℚ
  subtotal     : ℚ
  overhead     : ℚ
  totalCost    : ℚ
  deriving Repr, DecidableEq

/-- Cost block, lines 173–180 of `machining_quote_app.py`. -/
def computeCosts (vRaw machTimeMin : ℚ) (cp : CostParams) : CostResult :=
  let rawMass := vRaw * cp.matDensity
  let materialCost := rawMass * cp.matPrice
  let machineCost := machTimeMin / 60 * cp.machineRate
  let setupCost := cp.setupTimeMin / 60 * cp.setupLaborRate
  let subtotal := materialCost + machineCost + cp.toolCost + setupCost
  let overhead := subtotal * (cp.overheadPct / 100)
  let totalCost := subtotal + overhead
  ⟨rawMass, materialCost, machineCost, setupCost, subtotal, overhead,
   totalCost⟩

/-- The "Calculate Cost" button of `src/machining_quote.py`, lines 38–41:
`time_hours = time_minutes / 60; cost = time_hours * hourly_rate`. -/
def calculateCostButton (timeMinutes hourlyRate : ℚ) : ℚ :=
  timeMinutes / 60 * hourlyRate

/-- A full input snapshot of the page: block dimensions, final volume,
the two radio modes, the editable operations table and the cost inputs. -/
structure Snapshot where
  L        : ℚ
  W        : ℚ
  H        : ℚ
  vFinal   : ℚ
  feedMode : FeedMode
  aeMode   : AeMode
  ops      : List Operation
  cost     : CostParams
  deriving Repr, DecidableEq

/-- Everything the page derives from a snapshot. -/
structure QuoteResult where
  vRaw      : ℚ
  vChip     : ℚ
  opResults : List OpResult
  machTime  : ℚ
  totalTime : ℚ
  costs     : CostResult
  deriving Repr, DecidableEq

/-- The whole pipeline of `machining_quote_app.py`: geometry
(lines 70–71), the per-operation loop (117–140), time aggregation
(161–162) and the cost block (173–180), as one function of the input
snapshot. -/
def runPipeline (s : Snapshot) : QuoteResult :=
  let vRaw := V_raw s.L s.W s.H
  let vChip := V_chip vRaw s.vFinal
  let opResults := s.ops.map (computeOp s.feedMode s.aeMode vChip)
  let machTime := mach_time_min opResults
  let totalTime := total_time_min opResults s.cost.setupTimeMin
  let costs := computeCosts vRaw machTime s.cost
  ⟨vRaw, vChip, opResults, machTime, totalTime, costs⟩

/-! ## Concrete inputs used by witnesses and counterexamples -/

/-- The end-to-end scenario row: `teeth = 3`, `RPM = 12000`,
`f_z = 0.06`, `a_p = 8`, `a_e = 4`, `volumeShare = 1`,
tool diameter `12`. -/
def opScenario : Operation :=
  { toolDiameter := 12, teeth := 3, rpm := 12000, fz := 3/50,
    feedManual := 0, a_p := 8, a_e_mm := 4, ae_pct := 50,
    volumeShare := 1 }

/-- A row with a negative manual feed, giving a strictly negative MRR. -/
def opNegFeed : Operation :=
  { toolDiameter := 12, teeth := 3, rpm := 12000, fz := 3/50,
    feedManual := -1, a_p := 1, a_e_mm := 1, ae_pct := 50,
    volumeShare := 1 }

/-- A row with `a_p = 0`, giving MRR exactly zero. -/
def opZeroAp : Operation :=
  { toolDiameter := 12, teeth := 3, rpm := 12000, fz := 3/50,
    feedManual := 0, a_p := 0, a_e_mm := 1, ae_pct := 50,
    volumeShare := 1 }

/-- Sidebar cost inputs used by concrete snapshots. -/
def cpExample : CostParams :=
  { machineRate := 75, toolCost := 8, matDensity := 27/10000000,
    matPrice := 5, overheadPct := 15, setupTimeMin := 60,
    setupLaborRate := 40 }

/-- A full concrete snapshot: the spec's end-to-end block
(`L = 200`, `W = 150`, `H = 40`, `finalVolume = 680000`) with the
scenario row. -/
def snapScenario : Snapshot :=
  { L := 200, W := 150, H := 40, vFinal := 680000,
    feedMode := .calculate, aeMode := .manual,
    ops := [opScenario], cost := cpExample }

/-- A snapshot whose final volume exceeds the raw block volume. -/
def snapOversub : Snapshot :=
  { L := 10, W := 10, H := 10, vFinal := 2000,
    feedMode := .calculate, aeMode := .manual,
    ops := [opScenario, opNegFeed], cost := cpExample }

/-! ## Helper lemmas -/

/-- With zero chip volume every operation removes zero volume. -/
lemma computeOp_chipVol_of_zero (fm : FeedMode) (am : AeMode)
    (op : Operation) : (computeOp fm am 0 op).chipVol = 0 := by
  simp [computeOp]

/-- With zero chip volume every operation takes zero time, whatever
its MRR. -/
lemma computeOp_timeMin_of_zero (fm : FeedMode) (am : AeMode)
    (op : Operation) : (computeOp fm am 0 op).timeMin = 0 := by
  simp [computeOp]

/-- With zero chip volume the summed machining time is zero. -/
lemma mach_time_min_of_zero (fm : FeedMode) (am : AeMode)
    (ops : List Operation) :
    mach_time_min (ops.map (computeOp fm am 0)) = 0 := by
  induction ops with
  | nil => rfl
  | cons a l ih =>
      simpa [mach_time_min, computeOp_timeMin_of_zero] using ih

/-! ## Claims -/

/-- C1: on the spec's end-to-end scenario (chip volume `520000`, feed
`2160`, `a_p = 8`, `a_e = 4`, share `1`) the code's positive-MRR path
computes `chip_vol / mrr / 60 = 325/2592 ≈ 0.125` and not the claimed
`520000 / 69120 = 1625/216 ≈ 7.52` minutes: line 130 applies a hidden
`/60` even though the column is labelled "Time (min)" and MRR
"mm³/min". -/
theorem C1_hidden_div60_at_scenario :
    V_chip (V_raw 200 150 40) 680000 = 520000 ∧
    (computeOp .calculate .manual 520000 opScenario).feed = 2160 ∧
    (computeOp .calculate .manual 520000 opScenario).mrr = 69120 ∧
    (computeOp .calculate .manual 520000 opScenario).timeMin = 325/2592 ∧
    (computeOp .calculate .manual 520000 opScenario).timeMin ≠
      520000 / 69120 := by
  refine ⟨by norm_num [V_chip, V_raw], ?_, ?_, ?_, ?_⟩ <;>
    norm_num [computeOp, feedOf, aeOf, opScenario]

/-- C2 counterexample: a row with manual feed `-1`, `a_p = 1`,
`a_e = 1` has MRR `-1 < 0`, yet with chip volume `60` the loop divides
and returns time `-1 ≠ 0`: the guard `if mrr` on line 130 only catches
MRR exactly zero, not negative MRR. -/
theorem C2_negative_mrr_divides :
    (computeOp .manual .manual 60 opNegFeed).mrr < 0 ∧
    (computeOp .manual .manual 60 opNegFeed).timeMin = -1 ∧
    (computeOp .manual .manual 60 opNegFeed).timeMin ≠ 0 := by
  refine ⟨?_, ?_, ?_⟩ <;> norm_num [computeOp, feedOf, aeOf, opNegFeed]

/-- C2 (amended): whenever the MRR is exactly zero — in particular for
any combination of zero feed, depths, diameter, teeth, RPM or
feed-per-tooth that makes it zero — the computed time is exactly 0 and
no division is performed. -/
theorem C2_zero_mrr_gives_zero_time (fm : FeedMode) (am : AeMode)
    (vChip : ℚ) (op : Operation)
    (h : (computeOp fm am vChip op).mrr = 0) :
    (computeOp fm am vChip op).timeMin = 0 := by
  simp only [computeOp] at h ⊢
  simp [h]

/-- C2 witness: the zero-`a_p` row has zero MRR and zero time. -/
theorem C2_zero_mrr_gives_zero_time_witness :
    (computeOp .manual .manual 60 opZeroAp).timeMin = 0 :=
  C2_zero_mrr_gives_zero_time .manual .manual 60 opZeroAp
    (by norm_num [computeOp, feedOf, aeOf, opZeroAp])

/-- C3: for every block and every `finalVolume ≥ 0`,
`rawVolume = L * W * H`, `chipVolume = max(rawVolume - finalVolume, 0)`,
and the chip volume is nonnegative — also when the final volume exceeds
the raw volume — with no error path. -/
theorem C3_chip_volume_clamped (L W H vFinal : ℚ) (h : 0 ≤ vFinal) :
    V_raw L W H = L * W * H ∧
    V_chip (V_raw L W H) vFinal = max (V_raw L W H - vFinal) 0 ∧
    0 ≤ V_chip (V_raw L W H) vFinal :=
  ⟨rfl, rfl, le_max_right _ _⟩

/-- C3 witness: evaluated at `L = 200`, `W = 150`, `H = 40` and an
oversubscribed `finalVolume = 1300000 > 1200000`. -/
theorem C3_chip_volume_clamped_witness :
    (0:ℚ) ≤ 1300000 ∧
    (V_raw 200 150 40 = 200 * 150 * 40 ∧
     V_chip (V_raw 200 150 40) 1300000 =
       max (V_raw 200 150 40 - 1300000) 0 ∧
     0 ≤ V_chip (V_raw 200 150 40) 1300000) :=
  ⟨by norm_num, C3_chip_volume_clamped 200 150 40 1300000 (by norm_num)⟩

/-- C4: in every pipeline run the machining time is the sum of the
per-operation times and the total time is machining time plus setup
time, exactly. -/
theorem C4_time_aggregation (s : Snapshot) :
    (runPipeline s).machTime =
      ((runPipeline s).opResults.map OpResult.timeMin).sum ∧
    (runPipeline s).totalTime =
      (runPipeline s).machTime + s.cost.setupTimeMin :=
  ⟨rfl, rfl⟩

/-- C5: the cost block computes `rawMass = rawVolume × density`,
`materialCost = rawMass × price`, `machineCost = (machTime/60) × rate`,
`setupCost = (setupTime/60) × laborRate`, `subtotal = material +
machine + tool + setup`, `overhead = subtotal × pct/100` and
`totalCost = subtotal + overhead`; the "Calculate Cost" button of
`machining_quote.py` uses the same minutes-to-hours cost formula. -/
theorem C5_cost_formulas (vRaw machT : ℚ) (cp : CostParams) :
    (computeCosts vRaw machT cp).rawMass = vRaw * cp.matDensity ∧
    (computeCosts vRaw machT cp).materialCost =
      (computeCosts vRaw machT cp).rawMass * cp.matPrice ∧
    (computeCosts vRaw machT cp).machineCost =
      machT / 60 * cp.machineRate ∧
    (computeCosts vRaw machT cp).setupCost =
      cp.setupTimeMin / 60 * cp.setupLaborRate ∧
    (computeCosts vRaw machT cp).subtotal =
      (computeCosts vRaw machT cp).materialCost +
        (computeCosts vRaw machT cp).machineCost + cp.toolCost +
        (computeCosts vRaw machT cp).setupCost ∧
    (computeCosts vRaw machT cp).overhead =
      (computeCosts vRaw machT cp).subtotal * (cp.overheadPct / 100) ∧
    (computeCosts vRaw machT cp).totalCost =
      (computeCosts vRaw machT cp).subtotal +
        (computeCosts vRaw machT cp).overhead ∧
    calculateCostButton machT cp.machineRate =
      (computeCosts vRaw machT cp).machineCost :=
  ⟨rfl, rfl, rfl, rfl, rfl, rfl, rfl, rfl⟩

/-- C6: in auto mode `feed = teeth × RPM × feedPerTooth`, in manual
mode `feed` is the override column and is unchanged by any values of
RPM, teeth and feed-per-tooth; in both modes the MRR and time keep the
same formula shape `MRR = feed × a_p × a_e`,
`time = if MRR = 0 then 0 else chipVol / MRR / 60`. -/
theorem C6_feed_mode (op : Operation) (fm : FeedMode) (am : AeMode)
    (v r t z : ℚ) :
    feedOf .calculate op = op.teeth * op.rpm * op.fz ∧
    feedOf .manual op = op.feedManual ∧
    feedOf .manual { op with rpm := r, teeth := t, fz := z } =
      feedOf .manual op ∧
    (computeOp fm am v op).mrr =
      feedOf fm op * op.a_p * aeOf am op ∧
    (computeOp fm am v op).timeMin =
      (if (computeOp fm am v op).mrr = 0 then 0
       else (computeOp fm am v op).chipVol /
         (computeOp fm am v op).mrr / 60) :=
  ⟨rfl, rfl, rfl, rfl, rfl⟩

/-- C7: in percent mode `a_e = toolDiameter × (a_e_percent/100)` — in
particular `6` for a 50% stepover of a 12 mm tool — and in absolute
mode `a_e` is the literal column; either way the rest of the formula
is `MRR = feed × a_p × a_e`. -/
theorem C7_radial_mode (op op₂ : Operation) (fm : FeedMode)
    (am : AeMode) (v : ℚ) (h1 : op₂.ae_pct = 50)
    (h2 : op₂.toolDiameter = 12) :
    aeOf .percent op = op.toolDiameter * op.ae_pct / 100 ∧
    aeOf .manual op = op.a_e_mm ∧
    aeOf .percent op₂ = 6 ∧
    (computeOp fm am v op).mrr =
      feedOf fm op * op.a_p * aeOf am op := by
  refine ⟨rfl, rfl, ?_, rfl⟩
  rw [aeOf, h1, h2]
  norm_num

/-- C7 witness: the general mode rules instantiated at the
negative-feed row, with the scenario row (12 mm tool at 50%) for the
`a_e = 6` instance. -/
theorem C7_radial_mode_witness :
    opScenario.ae_pct = 50 ∧ opScenario.toolDiameter = 12 ∧
    (aeOf .percent opNegFeed =
       opNegFeed.toolDiameter * opNegFeed.ae_pct / 100 ∧
     aeOf .manual opNegFeed = opNegFeed.a_e_mm ∧
     aeOf .percent opScenario = 6 ∧
     (computeOp .calculate .percent 520000 opNegFeed).mrr =
       feedOf .calculate opNegFeed * opNegFeed.a_p *
         aeOf .percent opNegFeed) :=
  ⟨rfl, rfl,
   C7_radial_mode opNegFeed opScenario .calculate .percent 520000
     rfl rfl⟩

/-- C8: the pipeline is a pure function of its input snapshot — two
runs on identical snapshots produce identical results. -/
theorem C8_deterministic (s₁ s₂ : Snapshot) (h : s₁ = s₂) :
    runPipeline s₁ = runPipeline s₂ := by
  rw [h]

/-- C8 witness: two runs on the concrete scenario snapshot agree. -/
theorem C8_deterministic_witness :
    runPipeline snapScenario = runPipeline snapScenario :=
  C8_deterministic snapScenario snapScenario rfl

/-- C9: every operation removes `chipVolume × volumeShare`, so the
per-operation chip volumes sum to `chipVolume × (sum of shares)` —
shares summing to 1 partition the chip volume exactly, and
over-subscribed shares are neither normalized nor capped. -/
theorem C9_share_partition (fm : FeedMode) (am : AeMode) (vChip : ℚ)
    (op : Operation) (ops : List Operation) :
    (computeOp fm am vChip op).chipVol = vChip * op.volumeShare ∧
    ((ops.map (computeOp fm am vChip)).map OpResult.chipVol).sum =
      vChip * (ops.map Operation.volumeShare).sum := by
  refine ⟨rfl, ?_⟩
  induction ops with
  | nil => simp
  | cons a l ih =>
      simp only [List.map_cons, List.sum_cons, ih, mul_add]
      rfl

/-- C10: when the final volume is at least the raw volume the chip
volume is zero, every operation's removed volume and time are zero,
the machining time is zero, the total time equals the setup time and
the machine cost is zero — whatever the operations table contains. -/
theorem C10_oversubscribed_all_zero (s : Snapshot)
    (h : V_raw s.L s.W s.H ≤ s.vFinal) :
    (runPipeline s).vChip = 0 ∧
    (∀ r ∈ (runPipeline s).opResults, r.chipVol = 0 ∧ r.timeMin = 0) ∧
    (runPipeline s).machTime = 0 ∧
    (runPipeline s).totalTime = s.cost.setupTimeMin ∧
    (runPipeline s).costs.machineCost = 0 := by
  have hz : V_chip (V_raw s.L s.W s.H) s.vFinal = 0 := by
    unfold V_chip
    exact max_eq_right (sub_nonpos.2 h)
  have hops : (runPipeline s).opResults =
      s.ops.map (computeOp s.feedMode s.aeMode 0) := by
    show s.ops.map
        (computeOp s.feedMode s.aeMode
          (V_chip (V_raw s.L s.W s.H) s.vFinal)) = _
    rw [hz]
  have hmach : (runPipeline s).machTime = 0 := by
    show mach_time_min (s.ops.map
        (computeOp s.feedMode s.aeMode
          (V_chip (V_raw s.L s.W s.H) s.vFinal))) = 0
    rw [hz]
    exact mach_time_min_of_zero _ _ _
  refine ⟨hz, ?_, hmach, ?_, ?_⟩
  · intro r hr
    rw [hops] at hr
    obtain ⟨op, _, rfl⟩ := List.mem_map.1 hr
    exact ⟨computeOp_chipVol_of_zero _ _ _,
      computeOp_timeMin_of_zero _ _ _⟩
  · show (runPipeline s).machTime + s.cost.setupTimeMin =
      s.cost.setupTimeMin
    rw [hmach, zero_add]
  · show (runPipeline s).machTime / 60 * s.cost.machineRate = 0
    rw [hmach]
    norm_num

/-- C10 witness: the oversubscribed snapshot (`1000 mm³` block, final
volume `2000`) evaluated through the whole pipeline. -/
theorem C10_oversubscribed_all_zero_witness :
    V_raw snapOversub.L snapOversub.W snapOversub.H ≤
      snapOversub.vFinal ∧
    ((runPipeline snapOversub).vChip = 0 ∧
     (∀ r ∈ (runPipeline snapOversub).opResults,
        r.chipVol = 0 ∧ r.timeMin = 0) ∧
     (runPipeline snapOversub).machTime = 0 ∧
     (runPipeline snapOversub).totalTime =
       snapOversub.cost.setupTimeMin ∧
     (runPipeline snapOversub).costs.machineCost = 0) :=
  ⟨by norm_num [V_raw, snapOversub],
   C10_oversubscribed_all_zero snapOversub
     (by norm_num [V_raw, snapOversub])⟩

end MachiningQuote
